import Mathlib

/-!
Shallow embedding of the `rflib` scalar electromagnetics library
(modules `antennas`, `conversions`, `dielectrics`, `propagation`).

Modelling conventions:
* Python floats are modelled as exact numbers: `ℚ` where a function's body is
  pure field arithmetic, `ℝ` (and `ℂ` for the relaxation models) where the
  body uses `pi`, square roots, or real/complex powers.
* Every module executes `np.seterr(divide='raise', invalid='raise')` at import
  time, so a numpy division by zero raises `FloatingPointError` and a numpy
  `sqrt` of a negative argument raises `FloatingPointError`; a pure-Python
  float or complex division by zero raises `ZeroDivisionError`.  Fallible
  functions therefore return `Except PyError _`, with the checks placed where
  the corresponding Python exception would be raised (and re-raised by the
  surrounding `try`/`except` blocks of the source).
* `np.isnan` on a result that is a real number in the model is always false,
  so branches guarded by `np.isnan` after a successful real computation are
  unreachable and carry no `throw` in the model; where `np.sqrt` receives a
  negative argument the model raises `floatingPointError` at that point,
  exactly as `np.seterr(invalid='raise')` does (before any `np.isnan` guard
  can run).
* `RuntimeWarning`s (non-fatal) are not modelled.
-/

/-- The Python exception kinds raised by the library under
`np.seterr(divide='raise', invalid='raise')`. -/
inductive PyError where
  | zeroDivisionError
  | valueError
  | runtimeError
  | floatingPointError
deriving DecidableEq, Repr

open scoped Classical

/-- scipy.constants.speed_of_light = 299792458.0 (exact float). -/
def speed_of_light : ℝ := 299792458

/-- scipy.constants.epsilon_0 = 8.8541878128e-12 (CODATA 2018). -/
def epsilon_0 : ℝ := 8.8541878128e-12

/-- scipy.constants.mu_0 = 1.25663706212e-6 (CODATA 2018). -/
def mu_0 : ℝ := 1.25663706212e-6

/-- Python str.lower(), modelled characterwise (only ASCII selector strings
occur in this library).  `String.toLower` itself is avoided because its
well-founded recursion does not reduce in the kernel. -/
def pyLower (s : String) : String := ⟨s.data.map Char.toLower⟩

/-! ## conversions.py -/

/-- rflib.conversions.nepers_to_db: `nepers * 8.685889638`. -/
def nepers_to_db (nepers : ℚ) : ℚ := nepers * 8.685889638

/-- rflib.conversions.db_to_nepers: `db * 0.115129255`. -/
def db_to_nepers (db : ℚ) : ℚ := db * 0.115129255

/-- rflib.conversions.db_to_mag.  `10^(value/10)` for mode `power`,
`10^(value/20)` for mode `amplitude` (case-insensitive), otherwise
`ValueError`. -/
noncomputable def db_to_mag (value : ℝ) (mode : String) : Except PyError ℝ :=
  if pyLower mode = "power" then .ok ((10 : ℝ) ^ (value / 10))
  else if pyLower mode = "amplitude" then .ok ((10 : ℝ) ^ (value / 20))
  else .error .valueError

/-- rflib.conversions.mag_to_db.  `10 * log10 value` for mode `power`,
`20 * log10 value` for mode `amplitude` (case-insensitive), otherwise
`ValueError`; `np.log10` of a non-positive value raises `FloatingPointError`
under `np.seterr`, which the source catches and re-raises as `ValueError`. -/
noncomputable def mag_to_db (value : ℝ) (mode : String) : Except PyError ℝ :=
  if pyLower mode = "power" then
    if value ≤ 0 then .error .valueError
    else .ok (10 * Real.logb 10 value)
  else if pyLower mode = "amplitude" then
    if value ≤ 0 then .error .valueError
    else .ok (20 * Real.logb 10 value)
  else .error .valueError

/-! ## dielectrics.py (scalar conversions, multilayer formula) -/

/-- rflib.dielectrics.conductivity_to_tan_delta.  Rejects negative
permittivity/conductivity with `ValueError`; the division
`17.97591 * conductivity / (real_permittivity * freq)` is pure-Python and
raises `ZeroDivisionError` (caught and re-raised as `ZeroDivisionError`)
when `real_permittivity * freq == 0`. -/
def conductivity_to_tan_delta (freq conductivity real_permittivity : ℚ) :
    Except PyError ℚ :=
  if real_permittivity < 0 ∨ conductivity < 0 then .error .valueError
  else if real_permittivity * freq = 0 then .error .zeroDivisionError
  else .ok (17.97591 * conductivity / (real_permittivity * freq))

/-- np.isclose(x, 0) with the numpy defaults rtol=1e-5, atol=1e-8:
`|x - 0| <= atol + rtol * |0|`, i.e. `|x| <= 1e-8`. -/
def np_isclose_zero (x : ℚ) : Bool := |x| ≤ 1e-8

/-- rflib.dielectrics.tan_delta_to_conductivity.  Rejects negative real
permittivity with `ValueError`, rejects `np.isclose(freq, 0)` with
`ValueError`, then returns `0.05563 * real_permittivity * tan_delta * freq`
(no division). -/
def tan_delta_to_conductivity (freq real_permittivity tan_delta : ℚ) :
    Except PyError ℚ :=
  if real_permittivity < 0 then .error .valueError
  else if np_isclose_zero freq then .error .valueError
  else .ok (0.05563 * real_permittivity * tan_delta * freq)

/-- rflib.dielectrics.imaginary_permittivity_to_conductivity.  Rejects
`np.isclose(freq, 0)` with `ZeroDivisionError`, then returns
`0.05563 * freq * |imag_permittivity|` (no division). -/
def imaginary_permittivity_to_conductivity (freq imag_permittivity : ℚ) :
    Except PyError ℚ :=
  if np_isclose_zero freq then .error .zeroDivisionError
  else .ok (0.05563 * freq * |imag_permittivity|)

/-- rflib.dielectrics.conductivity_to_imaginary_permittivity.  Pure-Python
division `17.97591 * conductivity / freq`, `ZeroDivisionError` (caught and
re-raised) when `freq == 0`. -/
def conductivity_to_imaginary_permittivity (freq conductivity : ℚ) :
    Except PyError ℚ :=
  if freq = 0 then .error .zeroDivisionError
  else .ok (17.97591 * conductivity / freq)

/-- The loop of rflib.dielectrics.equivalent_relative_permittivity:
`for er_eff, ind_thickness in zip(epsilon_real, thicknesses):
   epsilon_real_eff += ind_thickness / (er_eff * total_thickness)`.
`total_thickness` is `np.sum(thicknesses)`, a numpy scalar, so a zero
denominator in the loop raises `FloatingPointError` (not caught by the
source's `except ZeroDivisionError`). -/
def sumLayerTerms (total : ℚ) : List (ℚ × ℚ) → ℚ → Except PyError ℚ
  | [], acc => .ok acc
  | p :: ps, acc =>
      if p.1 * total = 0 then .error .floatingPointError
      else sumLayerTerms total ps (acc + p.2 / (p.1 * total))

/-- rflib.dielectrics.equivalent_relative_permittivity.  Pairs are consumed
by `zip` (shortest list wins); the final inversion `1 / epsilon_real_eff`
operates on a pure-Python `0.0` when the zip is empty (`ZeroDivisionError`,
caught and re-raised as `ZeroDivisionError`), and on a numpy scalar when at
least one term was accumulated (`FloatingPointError`, uncaught). -/
def equivalent_relative_permittivity (epsilon_real thicknesses : List ℚ) :
    Except PyError ℚ :=
  let total_thickness := thicknesses.sum
  match sumLayerTerms total_thickness (epsilon_real.zip thicknesses) 0 with
  | .error e => .error e
  | .ok acc =>
      if acc = 0 then
        if (epsilon_real.zip thicknesses).isEmpty then .error .zeroDivisionError
        else .error .floatingPointError
      else .ok (1 / acc)

/-! ## antennas.py -/

/-- The body of rflib.antennas.hertzian_dipole_current after the power-units
branch: wavelength from frequency (`ZeroDivisionError` if `freq == 0`), the
geometry term `40 * pi^2 * (length/wavelength)^2` (a zero divisor inside the
`try` is caught and re-raised as `ZeroDivisionError`), the division
`power / dipole_current` (numpy `FloatingPointError` on a zero divisor,
caught and re-raised as `ZeroDivisionError`), and finally `np.sqrt`, which
raises `FloatingPointError` (uncaught) on a negative argument. -/
noncomputable def hertzian_dipole_current_body (freq power length : ℝ) :
    Except PyError ℝ :=
  if freq * 1e9 = 0 then .error .zeroDivisionError
  else
    let wavelength := speed_of_light / (freq * 1e9)
    if wavelength = 0 then .error .zeroDivisionError
    else
      let geom := 40 * Real.pi ^ 2 * (length / wavelength) ^ 2
      if geom = 0 then .error .zeroDivisionError
      else
        let dipole_current := power / geom
        if dipole_current < 0 then .error .floatingPointError
        else .ok (Real.sqrt dipole_current)

/-- rflib.antennas.hertzian_dipole_current.  Mode selector `units` is matched
case-insensitively: `dbm` converts the power via `10^(power/10) / 1e3`, `w`
requires `power != 0` (`ZeroDivisionError` otherwise), anything else raises
`RuntimeError` immediately. -/
noncomputable def hertzian_dipole_current (freq power length : ℝ)
    (units : String) : Except PyError ℝ :=
  if pyLower units = "dbm" then
    hertzian_dipole_current_body freq ((10 : ℝ) ^ (power / 10) / 1e3) length
  else if pyLower units = "w" then
    if power = 0 then .error .zeroDivisionError
    else hertzian_dipole_current_body freq power length
  else .error .runtimeError

/-- rflib.antennas.max_antenna_separation_full.  `ZeroDivisionError` if
`freq == 0`; mode `cheeky` (case-insensitive) divides the radius by 0.6 and
ANY other mode string is silently treated as `normal` (there is no `else`
branch); returns `(16 r^2 - wavelength^2) / (4 wavelength)`. -/
noncomputable def max_antenna_separation_full (freq radius : ℝ)
    (mode : String) : Except PyError ℝ :=
  if freq * 1e9 = 0 then .error .zeroDivisionError
  else
    let wavelength := speed_of_light / (freq * 1e9)
    let radius := if pyLower mode = "cheeky" then radius / 0.6 else radius
    .ok ((16 * radius ^ 2 - wavelength ^ 2) / (4 * wavelength))

/-- rflib.antennas.max_antenna_separation_approx.  Same structure as the full
version with the approximate formula `4 r^2 / wavelength`. -/
noncomputable def max_antenna_separation_approx (freq radius : ℝ)
    (mode : String) : Except PyError ℝ :=
  if freq * 1e9 = 0 then .error .zeroDivisionError
  else
    let wavelength := speed_of_light / (freq * 1e9)
    let radius := if pyLower mode = "cheeky" then radius / 0.6 else radius
    .ok (4 * radius ^ 2 / wavelength)

/-- rflib.antennas.fresnel_zone_radius.  `ZeroDivisionError` if `freq == 0`
or if `distance_1 + distance_2 == 0` (both divisions are pure-Python, caught
and re-raised); `np.sqrt` of a negative radius raises `FloatingPointError`
(uncaught). -/
noncomputable def fresnel_zone_radius (freq distance_1 distance_2 : ℝ) :
    Except PyError ℝ :=
  if freq * 1e9 = 0 then .error .zeroDivisionError
  else
    let wavelength := speed_of_light / (freq * 1e9)
    if distance_1 + distance_2 = 0 then .error .zeroDivisionError
    else
      let radius := wavelength * distance_1 * distance_2 /
        (distance_1 + distance_2)
      if radius < 0 then .error .floatingPointError
      else .ok (Real.sqrt radius)

/-- rflib.antennas.far_field_distance.  `ZeroDivisionError` if `freq == 0`;
the case-insensitive `antenna_type` selects the effective dimension, with an
explicit silent fallback to the raw `antenna_dimension` for any unrecognized
string; returns `2 * dimension^2 / wavelength`. -/
noncomputable def far_field_distance (freq antenna_dimension : ℝ)
    (antenna_type : String) : Except PyError ℝ :=
  if freq * 1e9 = 0 then .error .zeroDivisionError
  else
    let wavelength := speed_of_light / (freq * 1e9)
    let dimension :=
      if pyLower antenna_type = "monopole" then wavelength / 4.0
      else if pyLower antenna_type = "dipole" then wavelength / 2.0
      else if pyLower antenna_type = "array" then
        antenna_dimension * (wavelength / 2)
      else antenna_dimension
    .ok (2 * dimension ^ 2 / wavelength)

/-! ## propagation.py -/

/-- rflib.propagation.skin_depth.  The product
`pi * freq * conductivity * mu_0 * real_permeability` is fed to `np.sqrt`,
which under `np.seterr(invalid='raise')` raises `FloatingPointError`
(uncaught - the subsequent `np.isnan` guard and its `RuntimeError` are
unreachable) when the product is negative; the inversion `1 / delta` raises
on a zero divisor and is caught and re-raised as `ZeroDivisionError`. -/
noncomputable def skin_depth (freq conductivity real_permeability : ℝ) :
    Except PyError ℝ :=
  let delta := Real.pi * (freq * 1e9) * conductivity * mu_0 * real_permeability
  if delta < 0 then .error .floatingPointError
  else
    let delta := Real.sqrt delta
    if delta = 0 then .error .zeroDivisionError
    else .ok (1 / delta)

/-- rflib.propagation.metal_resistance.  Calls `skin_depth` first
(propagating its failures unchanged), then `ZeroDivisionError` if
`freq == 0`, then `pi * sqrt(mu_0/epsilon_0) * (skin_depth/wavelength)`. -/
noncomputable def metal_resistance (freq conductivity real_permeability : ℝ) :
    Except PyError ℝ :=
  match skin_depth freq conductivity real_permeability with
  | .error e => .error e
  | .ok metal_skin_depth =>
      if freq * 1e9 = 0 then .error .zeroDivisionError
      else
        let wavelength := speed_of_light / (freq * 1e9)
        .ok (Real.pi * Real.sqrt (mu_0 / epsilon_0) *
          (metal_skin_depth / wavelength))

/-- rflib.propagation.plane_wave_prop_const.  The ratio
`imag_permittivity / real_permittivity` raises on a zero divisor (caught and
re-raised as `ZeroDivisionError`); each `np.sqrt` of a negative argument
raises `FloatingPointError` (uncaught, making the `np.isnan`/`RuntimeError`
guards unreachable for real inputs). -/
noncomputable def plane_wave_prop_const
    (freq real_permittivity imag_permittivity real_permeability : ℝ) :
    Except PyError (ℝ × ℝ) :=
  let imag := |imag_permittivity| * epsilon_0
  let re := real_permittivity * epsilon_0
  let mu := real_permeability * mu_0
  let ang_freq := 2 * Real.pi * (freq * 1e9)
  if re = 0 then .error .zeroDivisionError
  else
    let common_root := 1 + (imag / re) ^ 2
    if common_root < 0 then .error .floatingPointError
    else
      let common_root := Real.sqrt common_root
      let common_multiplier := mu * re / 2
      if common_multiplier * (common_root - 1) < 0 then
        .error .floatingPointError
      else
        let alpha := ang_freq * Real.sqrt (common_multiplier *
          (common_root - 1))
        if common_multiplier * (common_root + 1) < 0 then
          .error .floatingPointError
        else
          .ok (alpha, ang_freq * Real.sqrt (common_multiplier *
            (common_root + 1)))

/-! ## dielectrics.py (relaxation models, over the complex numbers) -/

/-- rflib.dielectrics.cole_cole_single.  The conductivity term
`cond_static / (1j * ang_freq * epsilon_0)` is a pure-Python complex division
whose `ZeroDivisionError` is caught and re-raised as `ZeroDivisionError`; the
pole term divides `er_static - er_inf` by `1 + (1j * ang_freq * relax_time)
^ (1 - alpha)` (principal-branch complex power). -/
noncomputable def cole_cole_single
    (freq er_static er_inf cond_static relax_time alpha : ℝ) :
    Except PyError ℂ :=
  let ang_freq : ℝ := 2 * Real.pi * (freq * 1e9)
  let denom : ℂ := Complex.I * (ang_freq : ℂ) * ((epsilon_0 : ℝ) : ℂ)
  if denom = 0 then .error .zeroDivisionError
  else
    let er_complex_1 : ℂ := (cond_static : ℂ) / denom
    let temp_base : ℂ := Complex.I * (ang_freq : ℂ) * (relax_time : ℂ)
    let er_complex_2 : ℂ :=
      ((er_static - er_inf : ℝ) : ℂ) /
        (1 + temp_base ^ ((1 - alpha : ℝ) : ℂ))
    .ok ((er_inf : ℂ) + er_complex_2 + er_complex_1)

/-- rflib.dielectrics.debye_multipole.  Mismatched lengths of `relax_times`
and `er_disps` raise `RuntimeError` before any arithmetic; the conductivity
term behaves exactly as in `cole_cole_single`; the pole sum runs over
`zip relax_times er_disps`. -/
noncomputable def debye_multipole (freq er_inf cond_static : ℝ)
    (relax_times er_disps : List ℝ) : Except PyError ℂ :=
  if relax_times.length ≠ er_disps.length then .error .runtimeError
  else
    let ang_freq : ℝ := 2 * Real.pi * (freq * 1e9)
    let denom : ℂ := Complex.I * (ang_freq : ℂ) * ((epsilon_0 : ℝ) : ℂ)
    if denom = 0 then .error .zeroDivisionError
    else
      let er_complex_1 : ℂ := (cond_static : ℂ) / denom
      let er_complex_2 : ℂ := (relax_times.zip er_disps).foldl
        (fun acc p =>
          acc + (p.2 : ℂ) / (1 + Complex.I * (ang_freq : ℂ) * (p.1 : ℂ))) 0
      .ok ((er_inf : ℂ) + er_complex_2 + er_complex_1)

/-! ## Helper lemmas -/

theorem sumLayerTerms_eq_ok (total : ℚ) (ps : List (ℚ × ℚ)) (acc : ℚ)
    (h : ∀ p ∈ ps, p.1 * total ≠ 0) :
    sumLayerTerms total ps acc =
      .ok (acc + (ps.map (fun p => p.2 / (p.1 * total))).sum) := by
  induction ps generalizing acc with
  | nil => simp [sumLayerTerms]
  | cons p ps ih =>
      rw [sumLayerTerms, if_neg (h p (by simp)),
        ih _ (fun q hq => h q (by simp [hq]))]
      simp [add_assoc]

/-! ## Claim theorems -/

/-- C6: for every single-layer input with nonzero permittivity `e` and
nonzero thickness `t`, `equivalent_relative_permittivity [e] [t]` returns
exactly `e`, independent of the value of `t`. -/
theorem c6_single_layer_equivalent_permittivity (e t : ℚ)
    (he : e ≠ 0) (ht : t ≠ 0) :
    equivalent_relative_permittivity [e] [t] = .ok e := by
  have het : e * t ≠ 0 := mul_ne_zero he ht
  have hterm : t / (e * t) = 1 / e := by
    field_simp
    ring
  simp only [equivalent_relative_permittivity, List.sum_cons, List.sum_nil,
    add_zero, List.zip_cons_cons, List.zip_nil_right, sumLayerTerms,
    if_neg het, zero_add, hterm]
  rw [if_neg (one_div_ne_zero he), one_div_one_div]

/-- C6 witness: concrete single-layer evaluation. -/
theorem c6_single_layer_equivalent_permittivity_witness :
    equivalent_relative_permittivity [3] [2] = .ok 3 :=
  c6_single_layer_equivalent_permittivity 3 2 (by norm_num) (by norm_num)

/-- C7 counterexample: the round trip `nepers_to_db (db_to_nepers 1)` is not
exactly 1, because 0.115129255 is not the exact reciprocal of
8.685889638. -/
theorem c7_round_trip_not_exact :
    nepers_to_db (db_to_nepers 1) ≠ 1 := by
  unfold nepers_to_db db_to_nepers
  norm_num

/-- C7 amended: the round trip multiplies its argument by the exact rational
product `0.115129255 * 8.685889638 = 1000000003035159690 / 10^18`
(about `1 + 3.04e-9`), a fixed linear scaling with no failure modes; the two
constants are approximate, not exact, reciprocals. -/
theorem c7_round_trip_linear_factor (x : ℚ) :
    nepers_to_db (db_to_nepers x) =
      x * (1000000003035159690 / 1000000000000000000) := by
  unfold nepers_to_db db_to_nepers
  rw [mul_assoc]
  norm_num

/-- C8: calling `debye_multipole` with mismatched-length `relax_times` and
`er_disps` raises the structural `RuntimeError` before any arithmetic,
regardless of every other argument (including a zero frequency). -/
theorem c8_debye_mismatched_lengths (freq er_inf cond_static : ℝ)
    (relax_times er_disps : List ℝ)
    (h : relax_times.length ≠ er_disps.length) :
    debye_multipole freq er_inf cond_static relax_times er_disps =
      .error .runtimeError := by
  unfold debye_multipole
  rw [if_pos h]

/-- C8 witness: lengths 2 and 3 with frequency 0 still give the structural
`RuntimeError`, not the frequency `ZeroDivisionError`. -/
theorem c8_debye_mismatched_lengths_witness :
    debye_multipole 0 1 1 [1, 2] [1, 2, 3] = .error .runtimeError :=
  c8_debye_mismatched_lengths 0 1 1 [1, 2] [1, 2, 3] (by simp)

/-- C9 counterexample: `equivalent_relative_permittivity [] [1]` has lists of
unequal length, no (vacuously) zero permittivity and nonzero total thickness,
yet raises `ZeroDivisionError` (the empty zip leaves the accumulated sum at
the pure-Python `0.0`, and the final inversion divides by it), contradicting
the claim that such calls raise no error. -/
theorem c9_empty_first_list_raises :
    equivalent_relative_permittivity [] [1] =
      .error .zeroDivisionError := by
  rfl

/-- C9 amended: when both lists are nonempty with strictly positive entries,
a call with unequal lengths raises no error; it sums only the
`min`-length zipped pairs in order, while the denominator of each term uses
the sum of every element of `thicknesses`. -/
theorem c9_mismatched_lengths_zip_semantics (es ts : List ℚ)
    (hes : ∀ e ∈ es, 0 < e) (hts : ∀ t ∈ ts, 0 < t)
    (hnes : es ≠ []) (hnts : ts ≠ []) :
    equivalent_relative_permittivity es ts =
      .ok (1 / (((es.zip ts).map (fun p => p.2 / (p.1 * ts.sum))).sum)) := by
  have htot : 0 < ts.sum := List.sum_pos ts hts hnts
  have hpair : ∀ p ∈ es.zip ts, p.1 * ts.sum ≠ 0 := by
    intro p hp
    have hmem := List.of_mem_zip hp
    exact ne_of_gt (mul_pos (hes p.1 hmem.1) htot)
  have hzip_ne : es.zip ts ≠ [] := by
    obtain ⟨e, es', rfl⟩ := List.exists_cons_of_ne_nil hnes
    obtain ⟨t, ts', rfl⟩ := List.exists_cons_of_ne_nil hnts
    simp [List.zip_cons_cons]
  have hsum_pos :
      0 < ((es.zip ts).map (fun p => p.2 / (p.1 * ts.sum))).sum := by
    apply List.sum_pos
    · intro a ha
      obtain ⟨p, hp, rfl⟩ := List.mem_map.mp ha
      have hmem := List.of_mem_zip hp
      exact div_pos (hts p.2 hmem.2) (mul_pos (hes p.1 hmem.1) htot)
    · simpa using hzip_ne
  simp only [equivalent_relative_permittivity,
    sumLayerTerms_eq_ok ts.sum (es.zip ts) 0 hpair, zero_add]
  rw [if_neg (ne_of_gt hsum_pos)]

/-- C9 witness: lengths 1 and 2, positive entries: no error, the single
zipped pair is summed, and the unpaired thickness still inflates the total
thickness in the denominator. -/
theorem c9_mismatched_lengths_zip_semantics_witness :
    equivalent_relative_permittivity [2] [1, 3] = .ok 8 := by
  rw [c9_mismatched_lengths_zip_semantics [2] [1, 3]
    (by norm_num) (by norm_num) (by simp) (by simp)]
  simp only [List.zip_cons_cons, List.zip_nil_right, List.map_cons,
    List.map_nil, List.sum_cons, List.sum_nil]
  norm_num

/-- C10: both frequency-multiplying conversions reject any frequency within
the `np.isclose` absolute tolerance 1e-8 of zero (including small positive
values) with `ValueError` and `ZeroDivisionError` respectively, and accept
any frequency outside the tolerance, including negative ones, returning the
product formula with no error (for `tan_delta_to_conductivity` the real
permittivity must additionally be non-negative to pass its sign check). -/
theorem c10_frequency_closeness_rejection (f1 er td f2 ei : ℚ)
    (her : 0 ≤ er) :
    ((|f1| ≤ 1e-8 →
        tan_delta_to_conductivity f1 er td = .error .valueError) ∧
      (1e-8 < |f1| →
        tan_delta_to_conductivity f1 er td =
          .ok (0.05563 * er * td * f1))) ∧
    ((|f2| ≤ 1e-8 →
        imaginary_permittivity_to_conductivity f2 ei =
          .error .zeroDivisionError) ∧
      (1e-8 < |f2| →
        imaginary_permittivity_to_conductivity f2 ei =
          .ok (0.05563 * f2 * |ei|))) := by
  unfold tan_delta_to_conductivity imaginary_permittivity_to_conductivity
  unfold np_isclose_zero
  constructor
  · constructor
    · intro h
      rw [if_neg (not_lt.mpr her), if_pos (by simpa using h)]
    · intro h
      rw [if_neg (not_lt.mpr her), if_neg (by simpa using not_le.mpr h)]
  · constructor
    · intro h
      rw [if_pos (by simpa using h)]
    · intro h
      rw [if_neg (by simpa using not_le.mpr h)]

/-- C10 witness: the small positive frequency 1e-9 is rejected by both
functions, while the negative frequency -1 is accepted by both. -/
theorem c10_frequency_closeness_rejection_witness :
    tan_delta_to_conductivity 1e-9 1 2 = .error .valueError ∧
    tan_delta_to_conductivity (-1) 1 2 =
      .ok (0.05563 * 1 * 2 * (-1)) ∧
    imaginary_permittivity_to_conductivity 1e-9 3 =
      .error .zeroDivisionError ∧
    imaginary_permittivity_to_conductivity (-1) 3 =
      .ok (0.05563 * (-1) * |(3 : ℚ)|) := by
  have habs : |(1e-9 : ℚ)| ≤ 1e-8 := by
    rw [abs_of_pos (by norm_num)]
    norm_num
  have habs1 : (1e-8 : ℚ) < |(-1 : ℚ)| := by
    rw [abs_of_neg (by norm_num)]
    norm_num
  exact ⟨(c10_frequency_closeness_rejection 1e-9 1 2 1e-9 3
      (by norm_num)).1.1 habs,
    (c10_frequency_closeness_rejection (-1) 1 2 (-1) 3 (by norm_num)).1.2
      habs1,
    (c10_frequency_closeness_rejection 1e-9 1 2 1e-9 3 (by norm_num)).2.1
      habs,
    (c10_frequency_closeness_rejection (-1) 1 2 (-1) 3 (by norm_num)).2.2
      habs1⟩

/-- C1 counterexample: `conductivity_to_tan_delta` with the negative
frequency -1 GHz (and unit conductivity and permittivity) raises no error at
all: it silently returns the negative loss tangent -17.97591, contradicting
the claim that every frequency <= 0 raises a DomainError. -/
theorem c1_negative_frequency_not_rejected :
    conductivity_to_tan_delta (-1) 1 1 = .ok (-17.97591) := by
  unfold conductivity_to_tan_delta
  rw [if_neg (by norm_num), if_neg (by norm_num)]
  norm_num

/-- C3: at the failing input `skin_depth(-1, 1, 1)` the negative product
under the square root makes `np.sqrt` raise `FloatingPointError` under
`np.seterr(invalid='raise')` BEFORE the `np.isnan` guard can promote it to
the documented `RuntimeError` (that branch is dead code); the zero-product
case `skin_depth(0, 1, 1)` does raise the domain `ZeroDivisionError` as
claimed. -/
theorem c3_skin_depth_error_kinds :
    skin_depth (-1) 1 1 = .error .floatingPointError ∧
    skin_depth 0 1 1 = .error .zeroDivisionError := by
  constructor
  · simp only [skin_depth]
    rw [if_pos]
    rw [show Real.pi * (-1 * 1e9) * 1 * mu_0 * 1 =
      -(Real.pi * 1e9 * mu_0) by ring]
    rw [neg_lt_zero]
    have hm0 : (0 : ℝ) < mu_0 := by unfold mu_0; norm_num
    positivity
  · simp only [skin_depth]
    rw [show Real.pi * (0 * 1e9) * 1 * mu_0 * 1 = 0 by ring]
    rw [if_neg (lt_irrefl 0), Real.sqrt_zero, if_pos rfl]

/-- C4: on a lossless medium (`imag_permittivity = 0`) with positive
frequency, permittivity and permeability, `plane_wave_prop_const` returns
`alpha = 0` exactly and `beta = omega * sqrt(mu * epsilon)` with
`omega = 2 pi f 1e9`, `mu = mur * mu_0`, `epsilon = er * epsilon_0`. -/
theorem c4_lossless_plane_wave (f er mur : ℝ)
    (hf : 0 < f) (her : 0 < er) (hmur : 0 < mur) :
    plane_wave_prop_const f er 0 mur =
      .ok (0, 2 * Real.pi * (f * 1e9) *
        Real.sqrt (mur * mu_0 * (er * epsilon_0))) := by
  have he0 : (0 : ℝ) < epsilon_0 := by unfold epsilon_0; norm_num
  have hm0 : (0 : ℝ) < mu_0 := by unfold mu_0; norm_num
  have hre : er * epsilon_0 ≠ 0 := ne_of_gt (mul_pos her he0)
  simp only [plane_wave_prop_const]
  rw [show (1 : ℝ) + (|(0 : ℝ)| * epsilon_0 / (er * epsilon_0)) ^ 2 = 1 by
    simp]
  rw [Real.sqrt_one]
  rw [if_neg hre, if_neg (by norm_num : ¬(1 : ℝ) < 0)]
  rw [show (1 : ℝ) - 1 = 0 by norm_num, mul_zero, Real.sqrt_zero, mul_zero]
  rw [if_neg (lt_irrefl 0)]
  rw [show mur * mu_0 * (er * epsilon_0) / 2 * (1 + 1) =
    mur * mu_0 * (er * epsilon_0) by ring]
  rw [if_neg (not_lt.mpr (le_of_lt
    (mul_pos (mul_pos hmur hm0) (mul_pos her he0))))]

/-- C4 witness: concrete lossless evaluation at frequency 1 GHz,
permittivity 2, permeability 3. -/
theorem c4_lossless_plane_wave_witness :
    plane_wave_prop_const 1 2 0 3 =
      .ok (0, 2 * Real.pi * (1 * 1e9) *
        Real.sqrt (3 * mu_0 * (2 * epsilon_0))) :=
  c4_lossless_plane_wave 1 2 3 (by norm_num) (by norm_num) (by norm_num)

/-- C5: the Cole-Cole model with pole broadening `alpha = 0` at 2.4 GHz with
`er_static = 80`, `er_inf = 4`, `cond_static = 0.01`, `relax_time = 1e-11`
coincides exactly (in the real-arithmetic model) with the single-pole Debye
model with dispersion amplitude `er_static - er_inf = 76`. -/
theorem c5_cole_cole_alpha_zero_matches_debye :
    cole_cole_single 2.4 80 4 0.01 1e-11 0 =
      debye_multipole 2.4 4 0.01 [1e-11] [76] := by
  simp only [cole_cole_single, debye_multipole, List.length_cons,
    List.length_nil, ne_eq, OfNat.ofNat_ne_zero]
  rw [if_neg (not_not_intro trivial)]
  have hang : (2 * Real.pi * ((2.4 : ℝ) * 1e9)) ≠ 0 := by positivity
  have hd : Complex.I * ((2 * Real.pi * ((2.4 : ℝ) * 1e9) : ℝ) : ℂ) *
      ((epsilon_0 : ℝ) : ℂ) ≠ 0 := by
    refine mul_ne_zero (mul_ne_zero Complex.I_ne_zero ?_) ?_
    · exact Complex.ofReal_ne_zero.mpr hang
    · exact Complex.ofReal_ne_zero.mpr (by unfold epsilon_0; norm_num)
  rw [if_neg hd, if_neg hd]
  congr 1
  rw [show ((1 - 0 : ℝ) : ℂ) = 1 by norm_num, Complex.cpow_one]
  simp only [List.zip_cons_cons, List.zip_nil_right, List.foldl_cons,
    List.foldl_nil, zero_add]
  norm_num

/-- C1 amended: every listed function raises the domain `ZeroDivisionError`
when the frequency is exactly 0 (given recognized power units, non-negative
conductivity/permittivity for the sign-checked conversion, and
matching relaxation list lengths); negative frequencies are NOT uniformly
rejected (see the counterexample). -/
theorem c1_zero_frequency_domain_error
    (power length radius d1 d2 dim er_s er_i cond_s relax broadening
      cond mur : ℝ)
    (cq erq : ℚ) (units mode antenna_type : String)
    (relax_times er_disps : List ℝ)
    (hu : pyLower units = "dbm" ∨ pyLower units = "w")
    (herq : 0 ≤ erq) (hcq : 0 ≤ cq)
    (hlen : relax_times.length = er_disps.length) :
    hertzian_dipole_current 0 power length units =
      .error .zeroDivisionError ∧
    max_antenna_separation_full 0 radius mode =
      .error .zeroDivisionError ∧
    max_antenna_separation_approx 0 radius mode =
      .error .zeroDivisionError ∧
    fresnel_zone_radius 0 d1 d2 = .error .zeroDivisionError ∧
    far_field_distance 0 dim antenna_type = .error .zeroDivisionError ∧
    conductivity_to_tan_delta 0 cq erq = .error .zeroDivisionError ∧
    conductivity_to_imaginary_permittivity 0 cq =
      .error .zeroDivisionError ∧
    cole_cole_single 0 er_s er_i cond_s relax broadening =
      .error .zeroDivisionError ∧
    debye_multipole 0 er_i cond_s relax_times er_disps =
      .error .zeroDivisionError ∧
    metal_resistance 0 cond mur = .error .zeroDivisionError := by
  refine ⟨?_, ?_, ?_, ?_, ?_, ?_, ?_, ?_, ?_, ?_⟩
  · rcases hu with h | h
    · simp [hertzian_dipole_current, hertzian_dipole_current_body, h]
    · by_cases hp : power = 0 <;>
        simp [hertzian_dipole_current, hertzian_dipole_current_body, h, hp]
  · simp [max_antenna_separation_full]
  · simp [max_antenna_separation_approx]
  · simp [fresnel_zone_radius]
  · simp [far_field_distance]
  · unfold conductivity_to_tan_delta
    rw [if_neg (not_or.mpr ⟨not_lt.mpr herq, not_lt.mpr hcq⟩),
      if_pos (mul_zero erq)]
  · unfold conductivity_to_imaginary_permittivity
    rw [if_pos rfl]
  · simp [cole_cole_single,
      show (2 * Real.pi * ((0 : ℝ) * 1e9)) = 0 by ring]
  · simp only [debye_multipole]
    rw [if_neg (by simp [hlen])]
    simp [show (2 * Real.pi * ((0 : ℝ) * 1e9)) = 0 by ring]
  · simp only [metal_resistance, skin_depth]
    rw [show Real.pi * ((0 : ℝ) * 1e9) * cond * mu_0 * mur = 0 by ring]
    rw [if_neg (lt_irrefl 0), Real.sqrt_zero, if_pos rfl]

/-- C1 witness: the ten zero-frequency calls at concrete arguments. -/
theorem c1_zero_frequency_domain_error_witness :
    hertzian_dipole_current 0 5 1 "w" = .error .zeroDivisionError ∧
    max_antenna_separation_full 0 1 "normal" = .error .zeroDivisionError ∧
    max_antenna_separation_approx 0 1 "normal" =
      .error .zeroDivisionError ∧
    fresnel_zone_radius 0 1 2 = .error .zeroDivisionError ∧
    far_field_distance 0 1 "array" = .error .zeroDivisionError ∧
    conductivity_to_tan_delta 0 1 1 = .error .zeroDivisionError ∧
    conductivity_to_imaginary_permittivity 0 1 =
      .error .zeroDivisionError ∧
    cole_cole_single 0 80 4 0.01 1e-11 0 = .error .zeroDivisionError ∧
    debye_multipole 0 4 0.01 [1e-11] [76] = .error .zeroDivisionError ∧
    metal_resistance 0 1 1 = .error .zeroDivisionError :=
  c1_zero_frequency_domain_error 5 1 1 1 2 1 80 4 0.01 1e-11 0 1 1 1 1
    "w" "normal" "array" [1e-11] [76] (Or.inr (by decide)) (by norm_num)
    (by norm_num) (by simp)

/-- C2 counterexample: `max_antenna_separation_full` called with the
unrecognized mode string `sideways` raises no error at all: its mode check
has no rejecting branch, so the call silently behaves as mode `normal`. -/
theorem c2_unrecognized_mode_not_rejected :
    ∃ v, max_antenna_separation_full 1 1 "sideways" = .ok v := by
  simp only [max_antenna_separation_full]
  rw [if_neg (by norm_num : ¬((1 : ℝ) * 1e9 = 0))]
  exact ⟨_, rfl⟩

/-- C2 amended: the selectors `units` (hertzian_dipole_current) and `mode`
(db_to_mag, mag_to_db) are matched case-insensitively and any unrecognized
value raises an error; but `mode` in max_antenna_separation_full/_approx
silently treats every non-`cheeky` string as `normal`, and `antenna_type` in
far_field_distance silently falls back to using the raw antenna dimension
for every string outside monopole/dipole/array. -/
theorem c2_selector_rejection_and_fallback
    (freq power length value radius dim : ℝ)
    (units mode1 mode2 atype : String)
    (hu : pyLower units ≠ "dbm" ∧ pyLower units ≠ "w")
    (hm : pyLower mode1 ≠ "power" ∧ pyLower mode1 ≠ "amplitude")
    (hc : pyLower mode2 ≠ "cheeky")
    (ht : pyLower atype ≠ "monopole" ∧ pyLower atype ≠ "dipole" ∧
      pyLower atype ≠ "array") :
    hertzian_dipole_current freq power length units =
      .error .runtimeError ∧
    db_to_mag value mode1 = .error .valueError ∧
    mag_to_db value mode1 = .error .valueError ∧
    max_antenna_separation_full freq radius mode2 =
      max_antenna_separation_full freq radius "normal" ∧
    max_antenna_separation_approx freq radius mode2 =
      max_antenna_separation_approx freq radius "normal" ∧
    far_field_distance freq dim atype =
      (if freq * 1e9 = 0 then .error .zeroDivisionError
        else .ok (2 * dim ^ 2 / (speed_of_light / (freq * 1e9)))) := by
  refine ⟨?_, ?_, ?_, ?_, ?_, ?_⟩
  · unfold hertzian_dipole_current
    rw [if_neg hu.1, if_neg hu.2]
  · unfold db_to_mag
    rw [if_neg hm.1, if_neg hm.2]
  · unfold mag_to_db
    rw [if_neg hm.1, if_neg hm.2]
  · simp only [max_antenna_separation_full]
    rw [if_neg hc, if_neg (by decide : ¬(pyLower "normal" = "cheeky"))]
  · simp only [max_antenna_separation_approx]
    rw [if_neg hc, if_neg (by decide : ¬(pyLower "normal" = "cheeky"))]
  · simp only [far_field_distance]
    rw [if_neg ht.1, if_neg ht.2.1, if_neg ht.2.2]

/-- C2 witness: concrete rejected and silently-defaulted selector strings. -/
theorem c2_selector_rejection_and_fallback_witness :
    hertzian_dipole_current 1 5 1 "volts" = .error .runtimeError ∧
    db_to_mag 3 "linear" = .error .valueError ∧
    mag_to_db 3 "linear" = .error .valueError ∧
    max_antenna_separation_full 1 2 "sideways" =
      max_antenna_separation_full 1 2 "normal" ∧
    max_antenna_separation_approx 1 2 "sideways" =
      max_antenna_separation_approx 1 2 "normal" ∧
    far_field_distance 1 4 "horn" =
      (if (1 : ℝ) * 1e9 = 0 then .error .zeroDivisionError
        else .ok (2 * 4 ^ 2 / (speed_of_light / (1 * 1e9)))) :=
  c2_selector_rejection_and_fallback 1 5 1 3 2 4 "volts" "linear"
    "sideways" "horn" ⟨by decide, by decide⟩ ⟨by decide, by decide⟩
    (by decide) ⟨by decide, by decide, by decide⟩
